import Mathlib

/-!
Shallow embedding of the library-management business-logic layer
(`library_service.py`) together with the storage gateway it relies on.
Timestamps are modelled as integer seconds; the `.days` field of a Python
`timedelta` is floor division by 86400, and `.date()` of a timestamp is its
floor day number.  Money is modelled as rationals; the fee values the code
produces are integer multiples of 1/2, on which Python's `round(x, 2)` is
the identity, as is the `roundTo2` below.
-/

/-- One second-resolution day, matching Python `timedelta(days=1)`. -/
def secPerDay : Int := 86400

/-- `(a - b).days` of a Python timedelta: floor division of the difference
by the length of a day. -/
def daysBetween (a b : Int) : Int := (a - b).fdiv secPerDay

/-- `.date()` of a timestamp, as a floor day number. -/
def dateOf (t : Int) : Int := t.fdiv secPerDay

/-- Python `round(x, 2)`.  On values that are integer multiples of 1/100
(the only values the service produces) both Python's half-even rounding and
this definition are the identity. -/
def roundTo2 (q : ℚ) : ℚ := ((round (q * 100) : ℤ) : ℚ) / 100

/-- Python `str.isdigit()`: true on a nonempty all-digit string. -/
def pyIsDigit (s : String) : Bool := !s.isEmpty && s.data.all Char.isDigit

/-- The patron-id format check shared by borrow, return and report:
`not patron_id or not patron_id.isdigit() or len(patron_id) != 6`, negated. -/
def isValidPatronId (pid : String) : Bool :=
  !pid.isEmpty && pyIsDigit pid && pid.length == 6

/-- Whether the first list starts the second one (character-list version of
Python substring search, auxiliary). -/
def startsWithChars : List Char → List Char → Bool
  | [], _ => true
  | _ :: _, [] => false
  | a :: as, b :: bs => a == b && startsWithChars as bs

/-- Whether the first list occurs contiguously inside the second. -/
def containsChars (n : List Char) : List Char → Bool
  | [] => startsWithChars n []
  | b :: hs => startsWithChars n (b :: hs) || containsChars n hs

/-- Python `needle in hay` on strings: contiguous substring test. -/
def strContainsSub (needle hay : String) : Bool :=
  containsChars needle.data hay.data

/-- Python `str.strip()`: drop whitespace from both ends (the source only
ever strips ASCII-whitespace-delimited user input). -/
def pyStrip (s : String) : String :=
  ⟨((s.data.dropWhile Char.isWhitespace).reverse.dropWhile Char.isWhitespace).reverse⟩

/-- Modelled from the spec: `strftime("%Y-%m-%d")` is abstracted as the
day-number rendering of the timestamp (the exact text does not matter to
any claim, only that it is a function of the due date). -/
def dateToString (t : Int) : String := toString (dateOf t)

/-- `$ {fee:.2f}` rendering: the amount in whole and fractional cents.
Defined for the nonnegative multiples of 1/100 the service produces. -/
def formatFee2 (q : ℚ) : String :=
  let c : Int := round (q * 100)
  let r : Nat := (c % 100).toNat
  toString (c / 100) ++ "." ++ (if r < 10 then "0" else "") ++ toString r

structure Book where
  id : Nat
  title : String
  author : String
  isbn : String
  total_copies : Int
  available_copies : Int
  deriving Repr, DecidableEq

structure BorrowRecord where
  patron_id : String
  book_id : Nat
  borrow_date : Int
  due_date : Int
  return_date : Option Int
  deriving Repr, DecidableEq

/-- The persistent rows owned by the storage gateway, plus the id counter
the insert uses. -/
structure LibraryState where
  books : List Book
  records : List BorrowRecord
  nextId : Nat
  deriving Repr, DecidableEq

/-- Modelled from the spec: `getBookById(id) -> Book | absent`
(database module absent from src). -/
def get_book_by_id (s : LibraryState) (book_id : Nat) : Option Book :=
  s.books.find? (fun b => b.id == book_id)

/-- Modelled from the spec: `getBookByIsbn(isbn) -> Book | absent`. -/
def get_book_by_isbn (s : LibraryState) (isbn : String) : Option Book :=
  s.books.find? (fun b => b.isbn == isbn)

/-- Modelled from the spec: `getAllBooks() -> list<Book>, stable order`. -/
def get_all_books (s : LibraryState) : List Book := s.books

/-- Modelled from the spec: `insertBook(title, author, isbn, totalCopies,
availableCopies) -> ok`; a fresh id is assigned and the row appended. -/
def insert_book (s : LibraryState) (title author isbn : String)
    (total_copies available_copies : Int) : LibraryState :=
  { s with
    books := s.books ++
      [⟨s.nextId, title, author, isbn, total_copies, available_copies⟩],
    nextId := s.nextId + 1 }

/-- Modelled from the spec: `updateBookAvailability(id, delta) -> ok`,
adjusting the availability counter of the book with the given id. -/
def update_book_availability (s : LibraryState) (book_id : Nat)
    (delta : Int) : LibraryState :=
  { s with
    books := s.books.map (fun b =>
      if b.id == book_id then
        { b with available_copies := b.available_copies + delta }
      else b) }

/-- Modelled from the spec: `insertBorrowRecord(patronId, bookId,
borrowDate, dueDate) -> ok`, appending an open record. -/
def insert_borrow_record (s : LibraryState) (pid : String) (book_id : Nat)
    (borrow_date due_date : Int) : LibraryState :=
  { s with records := s.records ++ [⟨pid, book_id, borrow_date, due_date, none⟩] }

/-- The open-record condition of the SQL
`WHERE patron_id = ? AND book_id = ? AND return_date IS NULL`. -/
def matchesOpen (pid : String) (book_id : Nat) (r : BorrowRecord) : Bool :=
  r.patron_id == pid && r.book_id == book_id && r.return_date == none

/-- The `fetchone()` of that SQL query: the first open record for the
(patron, book) pair. -/
def findOpenRecord (s : LibraryState) (pid : String) (book_id : Nat) :
    Option BorrowRecord :=
  s.records.find? (matchesOpen pid book_id)

/-- Close the first open record for the pair, leaving the rest alone. -/
def closeFirst (pid : String) (book_id : Nat) (t : Int) :
    List BorrowRecord → List BorrowRecord
  | [] => []
  | r :: rs =>
    if matchesOpen pid book_id r then { r with return_date := some t } :: rs
    else r :: closeFirst pid book_id t rs

/-- Modelled from the spec: `updateBorrowRecordReturnDate(patronId, bookId,
returnDate) -> ok (affects the unique open record for that pair)`. -/
def update_borrow_record_return_date (s : LibraryState) (pid : String)
    (book_id : Nat) (t : Int) : LibraryState :=
  { s with records := closeFirst pid book_id t s.records }

/-- Modelled from the spec: `getPatronBorrowCount(patronId) -> integer
(open records only)`. -/
def get_patron_borrow_count (s : LibraryState) (pid : String) : Nat :=
  (s.records.filter (fun r => r.patron_id == pid && r.return_date == none)).length

/-- Modelled from the spec: `getPatronBorrowedBooks(patronId) -> list of
open loans with due dates`. -/
def get_patron_borrowed_books (s : LibraryState) (pid : String) :
    List BorrowRecord :=
  s.records.filter (fun r => r.patron_id == pid && r.return_date == none)

/-- `add_book_to_catalog` of `library_service.py`: the validation chain in
source order, the duplicate-ISBN lookup, then the insert (which the storage
contract reports as ok).  The state component is the storage after the
call. -/
def add_book_to_catalog (s : LibraryState) (title author isbn : String)
    (total_copies : Int) : (Bool × String) × LibraryState :=
  if (pyStrip title).isEmpty then ((false, "Title is required."), s)
  else if (pyStrip title).length > 200 then
    ((false, "Title must be less than 200 characters."), s)
  else if (pyStrip author).isEmpty then ((false, "Author is required."), s)
  else if (pyStrip author).length > 100 then
    ((false, "Author must be less than 100 characters."), s)
  else if isbn.length ≠ 13 then ((false, "ISBN must be exactly 13 digits."), s)
  else if !pyIsDigit isbn then
    ((false, "ISBN must be exactly 13 digits and contain only numbers."), s)
  else if total_copies ≤ 0 then
    ((false, "Total copies must be a positive integer."), s)
  else
    match get_book_by_isbn s isbn with
    | some _ => ((false, "A book with this ISBN already exists."), s)
    | none =>
      ((true, "Book \"" ++ pyStrip title ++
          "\" has been successfully added to the catalog."),
        insert_book s (pyStrip title) (pyStrip author) isbn total_copies total_copies)

/-- `borrow_book_by_patron` of `library_service.py`.  `now` is
`datetime.now()`; `insOk` and `decOk` are the success results of
`insert_borrow_record` and `update_book_availability` (under the storage
contract of the spec both are `true`; the flags keep the source's failure
branches expressible). -/
def borrow_book_by_patron (now : Int) (insOk decOk : Bool)
    (s : LibraryState) (pid : String) (book_id : Nat) :
    (Bool × String) × LibraryState :=
  if !isValidPatronId pid then
    ((false, "Invalid patron ID. Must be exactly 6 digits."), s)
  else
    match get_book_by_id s book_id with
    | none => ((false, "Book not found."), s)
    | some book =>
      if book.available_copies ≤ 0 then
        ((false, "This book is currently not available."), s)
      else if 5 ≤ get_patron_borrow_count s pid then
        ((false, "You have reached the maximum borrowing limit of 5 books."), s)
      else
        let due_date := now + 14 * secPerDay
        if !insOk then
          ((false, "Database error occurred while creating borrow record."), s)
        else
          let s1 := insert_borrow_record s pid book_id now due_date
          if !decOk then
            ((false, "Database error occurred while updating book availability."), s1)
          else
            ((true, "Successfully borrowed \"" ++ book.title ++
                "\". due date: " ++ dateToString due_date ++ "."),
              update_book_availability s1 book_id (-1))

/-- Result record of `calculate_late_fee_for_book`. -/
structure FeeResult where
  fee_amount : ℚ
  days_overdue : Int
  status : String
  deriving Repr, DecidableEq

/-- `calculate_late_fee_for_book` of `library_service.py`: look up the open
record's due date, take the whole-day difference to `now`, and apply the
two-tier tariff capped at 15.00. -/
def calculate_late_fee_for_book (s : LibraryState) (now : Int)
    (pid : String) (book_id : Nat) : FeeResult :=
  match findOpenRecord s pid book_id with
  | none => ⟨0, 0, "Book cannot be found"⟩
  | some r =>
    let days_overdue := daysBetween now r.due_date
    if days_overdue ≤ 0 then ⟨0, 0, "Returned on time"⟩
    else
      let first_week_late_fee : ℚ := ((min days_overdue 7 : Int) : ℚ) * (1 / 2)
      let additional_late_fee : ℚ := ((max (days_overdue - 7) 0 : Int) : ℚ) * 1
      ⟨roundTo2 (min (first_week_late_fee + additional_late_fee) 15),
        days_overdue, "Late fee calculated successfully"⟩

/-- `return_book_by_patron` of `library_service.py`.  `closeOk` and `incOk`
are the success results of `update_borrow_record_return_date` and of the
ignored `update_book_availability` call (both `true` under the storage
contract). -/
def return_book_by_patron (now : Int) (closeOk incOk : Bool)
    (s : LibraryState) (pid : String) (book_id : Nat) :
    (Bool × String) × LibraryState :=
  if !isValidPatronId pid then
    ((false, "Invalid patron ID. Must be exactly 6 digits."), s)
  else
    match get_book_by_id s book_id with
    | none => ((false, "Book not found."), s)
    | some book =>
      match findOpenRecord s pid book_id with
      | none =>
        ((false, "This book was not borrowed by this patron or has already been returned."), s)
      | some _ =>
        let fee := calculate_late_fee_for_book s now pid book_id
        if !closeOk then
          ((false, "There is no record of this borrowed book from this patron ID"), s)
        else
          let s1 := update_borrow_record_return_date s pid book_id now
          let s2 := if incOk then update_book_availability s1 book_id 1 else s1
          ((true, "Book \"" ++ book.title ++
              "\" has been returned successfully. Late fee: $" ++
              formatFee2 fee.fee_amount), s2)

/-- `search_books_in_catalog` of `library_service.py`: the for-loop with an
if/elif chain appending matches, written as a filter with the same
predicate. -/
def search_books_in_catalog (s : LibraryState) (search_term search_type : String) :
    List Book :=
  let search_for_term := (pyStrip search_term).toLower
  (get_all_books s).filter (fun b =>
    if search_type = "title" then strContainsSub search_for_term b.title.toLower
    else if search_type = "author" then strContainsSub search_for_term b.author.toLower
    else if search_type = "isbn" then search_for_term == b.isbn.toLower
    else false)

/-- One row of the report's history list: the SQL join of a borrow record
with its book's title and author, the unset return date replaced by a
marker string. -/
structure HistoryEntry where
  title : String
  author : String
  borrow_date : Int
  return_date : String
  deriving Repr, DecidableEq

/-- `row["return_date"] or "This book has not yet been returned"`: a stored
timestamp renders as itself, NULL as the marker. -/
def renderReturn : Option Int → String
  | some t => toString t
  | none => "This book has not yet been returned"

/-- Insert a record into a list kept in descending `borrow_date` order. -/
def insertDesc (r : BorrowRecord) : List BorrowRecord → List BorrowRecord
  | [] => [r]
  | x :: xs =>
    if x.borrow_date ≤ r.borrow_date then r :: x :: xs
    else x :: insertDesc r xs

/-- `ORDER BY borrow_date DESC` of the history query. -/
def sortByBorrowDesc : List BorrowRecord → List BorrowRecord
  | [] => []
  | r :: rs => insertDesc r (sortByBorrowDesc rs)

/-- The report returned by `get_patron_status_report`. -/
structure PatronReport where
  patron_id : String
  currently_borrowed : Nat
  borrowed_count : Nat
  total_late_fees : ℚ
  current_loans : List BorrowRecord
  history : List HistoryEntry
  status : String
  deriving Repr, DecidableEq

/-- `get_patron_status_report` of `library_service.py`: the invalid-id
early return, the flat per-loan fee accumulation over open loans at date
granularity, and the joined, newest-first history. -/
def get_patron_status_report (s : LibraryState) (now : Int) (pid : String) :
    PatronReport :=
  if !isValidPatronId pid then
    ⟨pid, 0, 0, 0, [], [], "Invalid ID"⟩
  else
    let current_books := get_patron_borrowed_books s pid
    let num_of_current_books := current_books.length
    let current_date := dateOf now
    let late_fee : ℚ := current_books.foldl (fun acc i =>
      let days_overdue := max 0 (current_date - dateOf i.due_date)
      if 0 < days_overdue then acc + min (((days_overdue : Int) : ℚ) * (1 / 2)) 15
      else acc) 0
    let full_history :=
      (sortByBorrowDesc (s.records.filter (fun r => r.patron_id == pid))).filterMap
        (fun r => (get_book_by_id s r.book_id).map (fun b =>
          (⟨b.title, b.author, r.borrow_date, renderReturn r.return_date⟩ : HistoryEntry)))
    ⟨pid, num_of_current_books, num_of_current_books, roundTo2 late_fee,
      current_books, full_history,
      if num_of_current_books < 5 then "Active" else "At borrowing limit"⟩

/-- Number of open borrow records referring to a given book. -/
def openCountR (recs : List BorrowRecord) (book_id : Nat) : Nat :=
  (recs.filter (fun r => r.book_id == book_id && r.return_date == none)).length

/-- States reachable from the empty store by the three catalog-mutating
operations, with the storage updates succeeding as the gateway contract
promises. -/
inductive Reachable : LibraryState → Prop
  | init : Reachable ⟨[], [], 0⟩
  | add (t a i : String) (n : Int) {s : LibraryState} :
      Reachable s → Reachable (add_book_to_catalog s t a i n).2
  | borrow (now : Int) (pid : String) (bid : Nat) {s : LibraryState} :
      Reachable s → Reachable (borrow_book_by_patron now true true s pid bid).2
  | ret (now : Int) (pid : String) (bid : Nat) {s : LibraryState} :
      Reachable s → Reachable (return_book_by_patron now true true s pid bid).2

/-- The bookkeeping invariant the operations maintain: every book's
availability is nonnegative and, together with its open-loan count, equals
its total; ids are unique, and every id in use is below the counter. -/
def StateInv (s : LibraryState) : Prop :=
  (∀ b ∈ s.books, 0 ≤ b.available_copies ∧
      b.available_copies + (openCountR s.records b.id : Int) = b.total_copies) ∧
  (∀ b ∈ s.books, b.id < s.nextId) ∧
  (s.books.map Book.id).Nodup ∧
  (∀ r ∈ s.records, r.book_id < s.nextId)

/-- The two-tier tariff exactly as the spec words it: 0.50 per day for the
first seven overdue days, 1.00 thereafter, capped at 15.00, rounded to two
decimals. -/
def specTariffFee (d : Int) : ℚ :=
  roundTo2 (min (((min d 7 : Int) : ℚ) * (1 / 2) + ((max (d - 7) 0 : Int) : ℚ) * 1) 15)

/-- A catalog with a single fully available book. -/
def sOne : LibraryState :=
  ⟨[⟨1, "Algorithms 101", "Ada", "1234567890123", 2, 2⟩], [], 2⟩

/-- A single book with no available copy. -/
def bookAvail0 : Book := ⟨1, "B", "A", "1111111111111", 1, 0⟩

/-- A catalog holding only `bookAvail0`. -/
def sAvail0 : LibraryState := ⟨[bookAvail0], [], 2⟩

/-- An open loan of book 1 by patron 123456, borrowed at time 0 and due at
day 14. -/
def recOpen : BorrowRecord := ⟨"123456", 1, 0, 1209600, none⟩

/-- The state in which that loan is open. -/
def sLoan : LibraryState := ⟨[bookAvail0], [recOpen], 2⟩

/-- Open loans of five distinct book ids by patron 123456. -/
def rec5 (k : Nat) : BorrowRecord := ⟨"123456", k, 0, 1209600, none⟩

/-- A patron already at the borrowing limit, with book 1 still available. -/
def sLimit : LibraryState :=
  ⟨[⟨1, "B", "A", "1111111111111", 1, 1⟩],
    [rec5 2, rec5 3, rec5 4, rec5 5, rec5 6], 7⟩

/-- The store after adding one book to the empty store. -/
def sReach1 : LibraryState :=
  (add_book_to_catalog ⟨[], [], 0⟩ "T" "A" "1234567890123" 1).2

/-- The book that addition creates. -/
def bReach1 : Book := ⟨0, "T", "A", "1234567890123", 1, 1⟩

/-- C8: a patron id failing the 6-digit format check makes the report come
back with all counts zero, fee 0.0, empty loan and history lists and status
"Invalid ID", for every storage state (so without any storage access). -/
theorem report_invalid_id_shape (s : LibraryState) (now : Int) (pid : String)
    (h : isValidPatronId pid = false) :
    get_patron_status_report s now pid = ⟨pid, 0, 0, 0, [], [], "Invalid ID"⟩ := by
  simp [get_patron_status_report, h]

/-- Witness for `report_invalid_id_shape` at the malformed id "12a". -/
theorem report_invalid_id_shape_witness :
    isValidPatronId "12a" = false ∧
    get_patron_status_report sOne 0 "12a" = ⟨"12a", 0, 0, 0, [], [], "Invalid ID"⟩ :=
  ⟨by decide, report_invalid_id_shape sOne 0 "12a" (by decide)⟩

/-- C9: a search whose field is none of "title", "author", "isbn" returns
the empty list, whatever the catalog holds. -/
theorem search_unknown_field_empty (s : LibraryState) (term ft : String)
    (h1 : ft ≠ "title") (h2 : ft ≠ "author") (h3 : ft ≠ "isbn") :
    search_books_in_catalog s term ft = [] := by
  simp [search_books_in_catalog, h1, h2, h3]

/-- Witness for `search_unknown_field_empty` on the field "edition". -/
theorem search_unknown_field_empty_witness :
    ("edition" ≠ "title" ∧ "edition" ≠ "author" ∧ "edition" ≠ "isbn") ∧
    search_books_in_catalog sOne "x" "edition" = [] :=
  ⟨⟨by decide, by decide, by decide⟩,
    search_unknown_field_empty sOne "x" "edition" (by decide) (by decide) (by decide)⟩

/-- C5: `add_book_to_catalog` checks title, author, isbn and total copies
in that order with the first failure winning, then the duplicate-isbn
lookup; each format failure returns its message with the state unchanged
and the result independent of the stored catalog (no storage access). -/
theorem add_book_validation_first_failure (s : LibraryState)
    (title author isbn : String) (tc : Int) :
    ((pyStrip title).isEmpty = true →
      add_book_to_catalog s title author isbn tc = ((false, "Title is required."), s)) ∧
    ((pyStrip title).isEmpty = false → 200 < (pyStrip title).length →
      add_book_to_catalog s title author isbn tc =
        ((false, "Title must be less than 200 characters."), s)) ∧
    ((pyStrip title).isEmpty = false → (pyStrip title).length ≤ 200 →
      (pyStrip author).isEmpty = true →
      add_book_to_catalog s title author isbn tc = ((false, "Author is required."), s)) ∧
    ((pyStrip title).isEmpty = false → (pyStrip title).length ≤ 200 →
      (pyStrip author).isEmpty = false → 100 < (pyStrip author).length →
      add_book_to_catalog s title author isbn tc =
        ((false, "Author must be less than 100 characters."), s)) ∧
    ((pyStrip title).isEmpty = false → (pyStrip title).length ≤ 200 →
      (pyStrip author).isEmpty = false → (pyStrip author).length ≤ 100 →
      isbn.length ≠ 13 →
      add_book_to_catalog s title author isbn tc =
        ((false, "ISBN must be exactly 13 digits."), s)) ∧
    ((pyStrip title).isEmpty = false → (pyStrip title).length ≤ 200 →
      (pyStrip author).isEmpty = false → (pyStrip author).length ≤ 100 →
      isbn.length = 13 → pyIsDigit isbn = false →
      add_book_to_catalog s title author isbn tc =
        ((false, "ISBN must be exactly 13 digits and contain only numbers."), s)) ∧
    ((pyStrip title).isEmpty = false → (pyStrip title).length ≤ 200 →
      (pyStrip author).isEmpty = false → (pyStrip author).length ≤ 100 →
      isbn.length = 13 → pyIsDigit isbn = true → tc ≤ 0 →
      add_book_to_catalog s title author isbn tc =
        ((false, "Total copies must be a positive integer."), s)) ∧
    ((pyStrip title).isEmpty = false → (pyStrip title).length ≤ 200 →
      (pyStrip author).isEmpty = false → (pyStrip author).length ≤ 100 →
      isbn.length = 13 → pyIsDigit isbn = true → 0 < tc →
      (get_book_by_isbn s isbn).isSome = true →
      add_book_to_catalog s title author isbn tc =
        ((false, "A book with this ISBN already exists."), s)) := by
  refine ⟨?_, ?_, ?_, ?_, ?_, ?_, ?_, ?_⟩
  · intro h1
    simp [add_book_to_catalog, h1]
  · intro h1 h2
    simp [add_book_to_catalog, h1, h2]
  · intro h1 h2 h3
    have n2 : ¬ 200 < (pyStrip title).length := by omega
    simp [add_book_to_catalog, h1, n2, h3]
  · intro h1 h2 h3 h4
    have n2 : ¬ 200 < (pyStrip title).length := by omega
    simp [add_book_to_catalog, h1, n2, h3, h4]
  · intro h1 h2 h3 h4 h5
    have n2 : ¬ 200 < (pyStrip title).length := by omega
    have n4 : ¬ 100 < (pyStrip author).length := by omega
    simp [add_book_to_catalog, h1, n2, h3, n4, h5]
  · intro h1 h2 h3 h4 h5 h6
    have n2 : ¬ 200 < (pyStrip title).length := by omega
    have n4 : ¬ 100 < (pyStrip author).length := by omega
    simp [add_book_to_catalog, h1, n2, h3, n4, h5, h6]
  · intro h1 h2 h3 h4 h5 h6 h7
    have n2 : ¬ 200 < (pyStrip title).length := by omega
    have n4 : ¬ 100 < (pyStrip author).length := by omega
    simp [add_book_to_catalog, h1, n2, h3, n4, h5, h6, h7]
  · intro h1 h2 h3 h4 h5 h6 h7 h8
    have n2 : ¬ 200 < (pyStrip title).length := by omega
    have n4 : ¬ 100 < (pyStrip author).length := by omega
    have n7 : ¬ tc ≤ 0 := by omega
    obtain ⟨b, hb⟩ := Option.isSome_iff_exists.mp h8
    simp [add_book_to_catalog, h1, n2, h3, n4, h5, h6, n7, hb]

/-- Witness for `add_book_validation_first_failure`: an empty title on a
nonempty catalog. -/
theorem add_book_validation_first_failure_witness :
    (pyStrip "").isEmpty = true ∧
    add_book_to_catalog sOne "" "A" "1234567890123" 1 =
      ((false, "Title is required."), sOne) :=
  ⟨by decide,
    (add_book_validation_first_failure sOne "" "A" "1234567890123" 1).1 (by decide)⟩

/-- C1: with an open record on file, the fee calculator reports
`days_overdue` as the whole-day difference of now minus the due date
clamped to at least 0; a zero overdue yields fee 0.00, a positive one the
two-tier tariff rounded to two decimals, which takes the values 0.50,
3.50, 4.50 and 15.00 at 1, 7, 8 and 100 days overdue. -/
theorem calculate_late_fee_matches_tariff (s : LibraryState) (now : Int)
    (pid : String) (bid : Nat) (r : BorrowRecord)
    (hfind : findOpenRecord s pid bid = some r) :
    (calculate_late_fee_for_book s now pid bid).days_overdue =
      max (daysBetween now r.due_date) 0 ∧
    (max (daysBetween now r.due_date) 0 = 0 →
      (calculate_late_fee_for_book s now pid bid).fee_amount = 0) ∧
    (0 < max (daysBetween now r.due_date) 0 →
      (calculate_late_fee_for_book s now pid bid).fee_amount =
        specTariffFee (max (daysBetween now r.due_date) 0)) ∧
    specTariffFee 1 = 1 / 2 ∧ specTariffFee 7 = 7 / 2 ∧
    specTariffFee 8 = 9 / 2 ∧ specTariffFee 100 = 15 := by
  have t1 : specTariffFee 1 = 1 / 2 := by
    norm_num [specTariffFee, roundTo2, round_eq]
  have t7 : specTariffFee 7 = 7 / 2 := by
    norm_num [specTariffFee, roundTo2, round_eq]
  have t8 : specTariffFee 8 = 9 / 2 := by
    norm_num [specTariffFee, roundTo2, round_eq]
  have t100 : specTariffFee 100 = 15 := by
    norm_num [specTariffFee, roundTo2, round_eq]
  unfold calculate_late_fee_for_book
  rw [hfind]
  by_cases hd : daysBetween now r.due_date ≤ 0
  · have hm : max (daysBetween now r.due_date) 0 = 0 := by omega
    simp [hd, hm, t1, t7, t8, t100]
  · have hm : max (daysBetween now r.due_date) 0 = daysBetween now r.due_date := by
      omega
    simp only [hd, if_false, hm]
    exact ⟨trivial, fun h => absurd h (by omega), fun _ => rfl, t1, t7, t8, t100⟩

/-- Witness for `calculate_late_fee_matches_tariff`: the open loan of
`sLoan`, one day past due. -/
theorem calculate_late_fee_matches_tariff_witness :
    findOpenRecord sLoan "123456" 1 = some recOpen ∧
    (calculate_late_fee_for_book sLoan 1296000 "123456" 1).days_overdue =
      max (daysBetween 1296000 recOpen.due_date) 0 :=
  ⟨by decide,
    (calculate_late_fee_matches_tariff sLoan 1296000 "123456" 1 recOpen (by decide)).1⟩

/-- C6 counterexample: borrowing the unavailable book of `sAvail0` with a
valid patron id fails, but the returned message "This book is currently
not available." does not contain the substring "unavailable". -/
theorem borrow_unavailable_message_counterexample :
    isValidPatronId "123456" = true ∧
    get_book_by_id sAvail0 1 = some bookAvail0 ∧
    bookAvail0.available_copies = 0 ∧
    (borrow_book_by_patron 0 true true sAvail0 "123456" 1).1.1 = false ∧
    strContainsSub "unavailable"
      (borrow_book_by_patron 0 true true sAvail0 "123456" 1).1.2 = false := by
  decide

/-- C6 amended: for every existing book with no available copy and valid
6-digit patron id, borrow fails and its message contains "not available"
(the code's wording; it never contains the single word "unavailable"). -/
theorem borrow_not_available_message (now : Int) (insOk decOk : Bool)
    (s : LibraryState) (pid : String) (bid : Nat) (book : Book)
    (hpid : isValidPatronId pid = true)
    (hbook : get_book_by_id s bid = some book)
    (havail : book.available_copies = 0) :
    borrow_book_by_patron now insOk decOk s pid bid =
      ((false, "This book is currently not available."), s) ∧
    strContainsSub "not available"
      (borrow_book_by_patron now insOk decOk s pid bid).1.2 = true := by
  have h : borrow_book_by_patron now insOk decOk s pid bid =
      ((false, "This book is currently not available."), s) := by
    simp [borrow_book_by_patron, hpid, hbook, havail]
  refine ⟨h, ?_⟩
  rw [h]
  exact (by decide :
    strContainsSub "not available" "This book is currently not available." = true)

/-- Witness for `borrow_not_available_message` on `sAvail0`. -/
theorem borrow_not_available_message_witness :
    (isValidPatronId "123456" = true ∧
      get_book_by_id sAvail0 1 = some bookAvail0 ∧
      bookAvail0.available_copies = 0) ∧
    borrow_book_by_patron 0 true true sAvail0 "123456" 1 =
      ((false, "This book is currently not available."), sAvail0) :=
  ⟨⟨by decide, by decide, by decide⟩,
    (borrow_not_available_message 0 true true sAvail0 "123456" 1 bookAvail0
      (by decide) (by decide) (by decide)).1⟩

/-- C3: with a valid patron id and an existing, available book, a patron
holding 5 or more open loans gets the limit message and the store is left
untouched; with exactly 4 open loans the borrow succeeds, so the boundary
is inclusive at 5. -/
theorem borrow_limit_boundary (now : Int) (insOk decOk : Bool)
    (s : LibraryState) (pid : String) (bid : Nat) (book : Book)
    (hpid : isValidPatronId pid = true)
    (hbook : get_book_by_id s bid = some book)
    (havail : 0 < book.available_copies) :
    (5 ≤ get_patron_borrow_count s pid →
      borrow_book_by_patron now insOk decOk s pid bid =
        ((false, "You have reached the maximum borrowing limit of 5 books."), s)) ∧
    (get_patron_borrow_count s pid = 4 → insOk = true → decOk = true →
      (borrow_book_by_patron now insOk decOk s pid bid).1.1 = true) := by
  constructor
  · intro hcnt
    have hna : ¬ book.available_copies ≤ 0 := by omega
    simp [borrow_book_by_patron, hpid, hbook, hna, hcnt]
  · intro hcnt hins hdec
    have hna : ¬ book.available_copies ≤ 0 := by omega
    have hnc : ¬ 5 ≤ get_patron_borrow_count s pid := by omega
    simp [borrow_book_by_patron, hpid, hbook, hna, hnc, hins, hdec]

/-- Witness for `borrow_limit_boundary`: patron 123456 of `sLimit` already
holds five open loans, so the sixth borrow fails. -/
theorem borrow_limit_boundary_witness :
    (isValidPatronId "123456" = true ∧
      get_book_by_id sLimit 1 = some ⟨1, "B", "A", "1111111111111", 1, 1⟩ ∧
      (0 : Int) < 1 ∧ 5 ≤ get_patron_borrow_count sLimit "123456") ∧
    borrow_book_by_patron 0 true true sLimit "123456" 1 =
      ((false, "You have reached the maximum borrowing limit of 5 books."), sLimit) :=
  ⟨⟨by decide, by decide, by decide, by decide⟩,
    (borrow_limit_boundary 0 true true sLimit "123456" 1
      ⟨1, "B", "A", "1111111111111", 1, 1⟩ (by decide) (by decide) (by decide)).1
      (by decide)⟩

/-- C4: on the success path the fee in the return message is the Fee
Calculator's result on the state as it was before the record is closed;
and when the closing update fails, `return_book_by_patron` reports failure
and leaves the store — availability included — untouched. -/
theorem return_fee_before_close_and_close_failure (now : Int) (incOk : Bool)
    (s : LibraryState) (pid : String) (bid : Nat) (book : Book)
    (r : BorrowRecord)
    (hpid : isValidPatronId pid = true)
    (hbook : get_book_by_id s bid = some book)
    (hrec : findOpenRecord s pid bid = some r) :
    ((return_book_by_patron now true incOk s pid bid).1 =
      (true, "Book \"" ++ book.title ++
        "\" has been returned successfully. Late fee: $" ++
        formatFee2 ((calculate_late_fee_for_book s now pid bid).fee_amount))) ∧
    (return_book_by_patron now false incOk s pid bid =
      ((false, "There is no record of this borrowed book from this patron ID"), s)) := by
  constructor
  · simp [return_book_by_patron, hpid, hbook, hrec]
  · simp [return_book_by_patron, hpid, hbook, hrec]

/-- Witness for `return_fee_before_close_and_close_failure` on the open
loan of `sLoan`. -/
theorem return_fee_before_close_and_close_failure_witness :
    (isValidPatronId "123456" = true ∧
      get_book_by_id sLoan 1 = some bookAvail0 ∧
      findOpenRecord sLoan "123456" 1 = some recOpen) ∧
    return_book_by_patron 1296000 false true sLoan "123456" 1 =
      ((false, "There is no record of this borrowed book from this patron ID"), sLoan) :=
  ⟨⟨by decide, by decide, by decide⟩,
    (return_fee_before_close_and_close_failure 1296000 true sLoan "123456" 1
      bookAvail0 recOpen (by decide) (by decide) (by decide)).2⟩

/-- C10: once the record is successfully closed the return reports success
whatever the availability increment does, and when that increment fails
the books — hence `available_copies` — are unchanged, so a success message
does not guarantee the increment happened. -/
theorem return_success_ignores_increment (now : Int) (incOk : Bool)
    (s : LibraryState) (pid : String) (bid : Nat) (book : Book)
    (r : BorrowRecord)
    (hpid : isValidPatronId pid = true)
    (hbook : get_book_by_id s bid = some book)
    (hrec : findOpenRecord s pid bid = some r) :
    ((return_book_by_patron now true incOk s pid bid).1.1 = true) ∧
    ((return_book_by_patron now true false s pid bid).2.books = s.books) := by
  constructor
  · simp [return_book_by_patron, hpid, hbook, hrec]
  · simp [return_book_by_patron, hpid, hbook, hrec,
      update_borrow_record_return_date]

/-- Witness for `return_success_ignores_increment` on the open loan of
`sLoan`: the return succeeds even though the increment fails. -/
theorem return_success_ignores_increment_witness :
    (isValidPatronId "123456" = true ∧
      get_book_by_id sLoan 1 = some bookAvail0 ∧
      findOpenRecord sLoan "123456" 1 = some recOpen) ∧
    (return_book_by_patron 1296000 true false sLoan "123456" 1).1.1 = true :=
  ⟨⟨by decide, by decide, by decide⟩,
    (return_success_ignores_increment 1296000 false sLoan "123456" 1
      bookAvail0 recOpen (by decide) (by decide) (by decide)).1⟩

/-- The report's guarded fee accumulation equals the plain sum of the
per-loan capped fees: a loan that is not overdue contributes 0. -/
theorem report_fee_foldl_aux (today : ℤ) (l : List BorrowRecord) (acc : ℚ) :
    List.foldl
      (fun acc i =>
        if dateOf i.due_date < today then
          acc + (0 ⊔ ((today : ℚ) - (↑(dateOf i.due_date) : ℚ))) * 2⁻¹ ⊓ 15
        else acc) acc l =
    acc + (List.map
      (fun r => (0 ⊔ ((today : ℚ) - (↑(dateOf r.due_date) : ℚ))) * 2⁻¹ ⊓ 15) l).sum := by
  induction l generalizing acc with
  | nil => simp
  | cons r rs ih =>
    simp only [List.foldl_cons, List.map_cons, List.sum_cons]
    by_cases h : dateOf r.due_date < today
    · rw [if_pos h, ih]; ring
    · rw [if_neg h, ih]
      have hle : ((today : ℚ) - (↑(dateOf r.due_date) : ℚ)) ≤ 0 := by
        rw [sub_nonpos]
        exact_mod_cast not_lt.mp h
      rw [sup_eq_left.mpr hle]
      norm_num

/-- C7: for a valid patron id the report's `total_late_fees` is the sum,
over the patron's open loans, of the flat per-loan fee
min(daysOverdue × 0.5, 15.0) at date granularity with days clamped to at
least 0, rounded to two decimals — not the Fee Calculator's two-tier
tariff. -/
theorem report_total_late_fees_flat (s : LibraryState) (now : Int)
    (pid : String) (h : isValidPatronId pid = true) :
    (get_patron_status_report s now pid).total_late_fees =
      roundTo2 (((get_patron_borrowed_books s pid).map (fun r =>
        min (((max 0 (dateOf now - dateOf r.due_date) : Int) : ℚ) * (1 / 2)) 15)).sum) := by
  simp [get_patron_status_report, h]
  rw [report_fee_foldl_aux, zero_add]

/-- Witness for `report_total_late_fees_flat`: the single open loan of
`sLoan`, one day overdue. -/
theorem report_total_late_fees_flat_witness :
    isValidPatronId "123456" = true ∧
    (get_patron_status_report sLoan 1296000 "123456").total_late_fees =
      roundTo2 (((get_patron_borrowed_books sLoan "123456").map (fun r =>
        min (((max 0 (dateOf 1296000 - dateOf r.due_date) : Int) : ℚ) * (1 / 2)) 15)).sum) :=
  ⟨by decide, report_total_late_fees_flat sLoan 1296000 "123456" (by decide)⟩

/-- Appending a record adds 1 to the open count of its book if it is open,
and nothing otherwise. -/
theorem openCountR_append (recs : List BorrowRecord) (r : BorrowRecord) (bid : Nat) :
    openCountR (recs ++ [r]) bid =
      openCountR recs bid +
        (if r.book_id = bid ∧ r.return_date = none then 1 else 0) := by
  by_cases h : r.book_id = bid ∧ r.return_date = none
  · simp [openCountR, List.filter_append, h.1, h.2]
  · rw [if_neg h]
    simp only [openCountR, List.filter_append]
    have : (List.filter (fun r => r.book_id == bid && r.return_date == none) [r]) = [] := by
      simp only [List.filter_eq_nil_iff]
      intro a ha
      simp only [List.mem_singleton] at ha
      subst ha
      simp only [Bool.and_eq_true, beq_iff_eq]
      tauto
    simp [this]

/-- A book id past every record's id has no open record. -/
theorem openCountR_eq_zero (recs : List BorrowRecord) (m : Nat)
    (h : ∀ r ∈ recs, r.book_id ≠ m) : openCountR recs m = 0 := by
  simp only [openCountR, List.length_eq_zero, List.filter_eq_nil_iff]
  intro r hr
  simp [h r hr]

/-- Closing the open record of one book leaves every other book's open
count unchanged. -/
theorem openCountR_closeFirst_ne (pid : String) (bid : Nat) (t : Int)
    {bid' : Nat} (h : bid' ≠ bid) :
    ∀ recs : List BorrowRecord,
      openCountR (closeFirst pid bid t recs) bid' = openCountR recs bid'
  | [] => rfl
  | r :: rs => by
    by_cases hm : matchesOpen pid bid r
    · have hbid : r.book_id = bid := by
        simp only [matchesOpen, Bool.and_eq_true, beq_iff_eq] at hm
        exact hm.1.2
      have hne : ¬ (r.book_id == bid' && r.return_date == none) = true := by
        simp only [Bool.and_eq_true, beq_iff_eq]
        rintro ⟨h1, -⟩
        exact h (h1 ▸ hbid.symm ▸ rfl)
      simp only [closeFirst, if_pos hm, openCountR, List.filter_cons]
      have hne2 : ¬ (({ r with return_date := some t } : BorrowRecord).book_id == bid'
          && ({ r with return_date := some t } : BorrowRecord).return_date == none) = true := by
        simp
      simp only [hne, hne2, if_neg, ite_false]
      rfl
    · simp only [closeFirst, if_neg hm, openCountR, List.filter_cons]
      by_cases hc : (r.book_id == bid' && r.return_date == none) = true
      · simp only [hc, if_true, List.length_cons]
        have := openCountR_closeFirst_ne pid bid t h rs
        simp only [openCountR] at this
        omega
      · simp only [hc, if_false, ite_false]
        exact openCountR_closeFirst_ne pid bid t h rs

/-- When an open record for the pair exists, closing it lowers the book's
open count by exactly one. -/
theorem openCountR_closeFirst_found (pid : String) (bid : Nat) (t : Int) :
    ∀ recs : List BorrowRecord,
      (recs.find? (matchesOpen pid bid)).isSome = true →
      openCountR (closeFirst pid bid t recs) bid + 1 = openCountR recs bid
  | [], h => by simp [List.find?] at h
  | r :: rs, h => by
    by_cases hm : matchesOpen pid bid r
    · have hbid : r.book_id = bid ∧ r.return_date = none := by
        simp only [matchesOpen, Bool.and_eq_true, beq_iff_eq] at hm
        exact ⟨hm.1.2, hm.2⟩
      have hpos : (r.book_id == bid && r.return_date == none) = true := by
        simp [hbid.1, hbid.2]
      have hclosed : ¬ (({ r with return_date := some t } : BorrowRecord).book_id == bid
          && ({ r with return_date := some t } : BorrowRecord).return_date == none) = true := by
        simp
      simp only [closeFirst, if_pos hm, openCountR, List.filter_cons, hpos, hclosed,
        if_true, ite_false, List.length_cons]
      rfl
    · have hfind : (rs.find? (matchesOpen pid bid)).isSome = true := by
        rw [List.find?_cons_of_neg _ (by simpa using hm)] at h
        exact h
      have ih := openCountR_closeFirst_found pid bid t rs hfind
      simp only [closeFirst, if_neg hm, openCountR, List.filter_cons]
      by_cases hc : (r.book_id == bid && r.return_date == none) = true
      · simp only [hc, if_true, List.length_cons]
        simp only [openCountR] at ih
        omega
      · simp only [hc, if_false, ite_false]
        exact ih

/-- Closing a record does not change which book ids occur in the log. -/
theorem closeFirst_book_id_lt (pid : String) (bid : Nat) (t : Int) (n : Nat) :
    ∀ recs : List BorrowRecord, (∀ r ∈ recs, r.book_id < n) →
      ∀ r ∈ closeFirst pid bid t recs, r.book_id < n
  | [], _, r, hr => by simp [closeFirst] at hr
  | x :: xs, h, r, hr => by
    by_cases hm : matchesOpen pid bid x
    · simp only [closeFirst, if_pos hm, List.mem_cons] at hr
      rcases hr with hr | hr
      · subst hr
        exact h x (List.mem_cons_self x xs)
      · exact h r (List.mem_cons_of_mem x hr)
    · simp only [closeFirst, if_neg hm, List.mem_cons] at hr
      rcases hr with hr | hr
      · subst hr
        exact h r (List.mem_cons_self r xs)
      · exact closeFirst_book_id_lt pid bid t n xs
          (fun a ha => h a (List.mem_cons_of_mem x ha)) r hr

/-- The availability update does not change the list of book ids. -/
theorem update_books_map_id (s : LibraryState) (bid : Nat) (d : Int) :
    (update_book_availability s bid d).books.map Book.id = s.books.map Book.id := by
  simp only [update_book_availability, List.map_map]
  apply List.map_congr_left
  intro b _
  by_cases h : b.id = bid <;> simp [h]

/-- A successful book lookup returns a stored book carrying the id that
was asked for. -/
theorem get_book_by_id_mem {s : LibraryState} {bid : Nat} {book : Book}
    (h : get_book_by_id s bid = some book) : book ∈ s.books ∧ book.id = bid := by
  unfold get_book_by_id at h
  refine ⟨List.mem_of_find?_eq_some h, ?_⟩
  have := List.find?_some h
  simpa using this

/-- The invariant holds in the empty store. -/
theorem inv_init : StateInv ⟨[], [], 0⟩ := by
  refine ⟨?_, ?_, ?_, ?_⟩ <;> simp

/-- `add_book_to_catalog` preserves the invariant: a fresh book enters
with availability equal to its total and no open records. -/
theorem inv_add (s : LibraryState) (t a i : String) (n : Int)
    (h : StateInv s) : StateInv (add_book_to_catalog s t a i n).2 := by
  unfold add_book_to_catalog
  split_ifs with h1 h2 h3 h4 h5 h6 h7
  · exact h
  · exact h
  · exact h
  · exact h
  · exact h
  · exact h
  · exact h
  · cases hb : get_book_by_isbn s i with
    | some b => exact h
    | none =>
      dsimp only
      simp only [insert_book]
      obtain ⟨hA, hB, hC, hD⟩ := h
      refine ⟨?_, ?_, ?_, ?_⟩
      · intro b hbm
        dsimp only at hbm ⊢
        simp only [List.mem_append, List.mem_singleton] at hbm
        rcases hbm with hbm | hbm
        · exact hA b hbm
        · subst hbm
          dsimp only
          refine ⟨by omega, ?_⟩
          rw [openCountR_eq_zero s.records s.nextId
            (fun r hr => Nat.ne_of_lt (hD r hr))]
          simp
      · intro b hbm
        simp only [List.mem_append, List.mem_singleton] at hbm
        rcases hbm with hbm | hbm
        · have := hB b hbm
          show b.id < s.nextId + 1
          omega
        · subst hbm
          show s.nextId < s.nextId + 1
          omega
      · rw [List.map_append]
        refine List.Nodup.append hC (List.nodup_singleton _) ?_
        intro x hx hx'
        simp only [List.map_cons, List.map_nil, List.mem_singleton] at hx'
        subst hx'
        rcases List.mem_map.mp hx with ⟨b, hbm, hbid⟩
        have := hB b hbm
        omega
      · intro r hr
        have := hD r hr
        show r.book_id < s.nextId + 1
        omega

/-- The borrow transition — insert an open record, then decrement the
book's availability — preserves the invariant whenever the book exists and
has a copy available. -/
theorem inv_borrow_success (s : LibraryState) (pid : String) (bid : Nat)
    (book : Book) (bd dd : Int) (h : StateInv s)
    (hbk : get_book_by_id s bid = some book)
    (havail : ¬ book.available_copies ≤ 0) :
    StateInv (update_book_availability (insert_borrow_record s pid bid bd dd) bid (-1)) := by
  obtain ⟨hA, hB, hC, hD⟩ := h
  obtain ⟨hmem, hid⟩ := get_book_by_id_mem hbk
  have hrecs : (update_book_availability (insert_borrow_record s pid bid bd dd) bid (-1)).records =
      s.records ++ [⟨pid, bid, bd, dd, none⟩] := rfl
  have hbooks : (update_book_availability (insert_borrow_record s pid bid bd dd) bid (-1)).books =
      s.books.map (fun b =>
        if b.id == bid then { b with available_copies := b.available_copies + (-1) } else b) := rfl
  have hnext : (update_book_availability (insert_borrow_record s pid bid bd dd) bid (-1)).nextId =
      s.nextId := rfl
  refine ⟨?_, ?_, ?_, ?_⟩
  · intro b' hb'
    rw [hbooks] at hb'
    rcases List.mem_map.mp hb' with ⟨b, hbm, rfl⟩
    obtain ⟨h0, hsum⟩ := hA b hbm
    rw [hrecs]
    by_cases hcase : b.id = bid
    · have hbe : b = book :=
        List.inj_on_of_nodup_map hC hbm hmem (by rw [hcase, hid])
      have hop := openCountR_append s.records ⟨pid, bid, bd, dd, none⟩ b.id
      rw [if_pos ⟨hcase.symm, rfl⟩] at hop
      have hgt : 0 < b.available_copies := by
        rw [hbe]; omega
      simp only [if_pos (show (b.id == bid) = true by simp [hcase])]
      rw [hop]
      push_cast
      constructor
      · omega
      · omega
    · have hop := openCountR_append s.records ⟨pid, bid, bd, dd, none⟩ b.id
      rw [if_neg (fun hcon => hcase hcon.1.symm)] at hop
      simp only [if_neg (show ¬ (b.id == bid) = true by simp [hcase])]
      rw [hop]
      push_cast
      exact ⟨h0, by omega⟩
  · intro b' hb'
    have hmm : b'.id ∈ (update_book_availability (insert_borrow_record s pid bid bd dd) bid (-1)).books.map Book.id :=
      List.mem_map_of_mem _ hb'
    rw [update_books_map_id] at hmm
    rcases List.mem_map.mp hmm with ⟨b, hbm, hbe⟩
    rw [hnext, ← hbe]
    exact hB b hbm
  · rw [update_books_map_id]
    exact hC
  · intro r hr
    rw [hrecs] at hr
    rw [hnext]
    rcases List.mem_append.mp hr with hr | hr
    · exact hD r hr
    · rw [List.mem_singleton] at hr
      subst hr
      show bid < s.nextId
      have h1 := hB book hmem
      omega

/-- The return transition — close the open record, then increment the
book's availability — preserves the invariant whenever the book exists
and an open record for the pair is on file. -/
theorem inv_ret_success (s : LibraryState) (pid : String) (bid : Nat)
    (book : Book) (t : Int) (h : StateInv s)
    (hbk : get_book_by_id s bid = some book)
    (hrec : (s.records.find? (matchesOpen pid bid)).isSome = true) :
    StateInv (update_book_availability (update_borrow_record_return_date s pid bid t) bid 1) := by
  obtain ⟨hA, hB, hC, hD⟩ := h
  obtain ⟨hmem, hid⟩ := get_book_by_id_mem hbk
  have hrecs : (update_book_availability (update_borrow_record_return_date s pid bid t) bid 1).records =
      closeFirst pid bid t s.records := rfl
  have hbooks : (update_book_availability (update_borrow_record_return_date s pid bid t) bid 1).books =
      s.books.map (fun b =>
        if b.id == bid then { b with available_copies := b.available_copies + 1 } else b) := rfl
  have hnext : (update_book_availability (update_borrow_record_return_date s pid bid t) bid 1).nextId =
      s.nextId := rfl
  refine ⟨?_, ?_, ?_, ?_⟩
  · intro b' hb'
    rw [hbooks] at hb'
    rcases List.mem_map.mp hb' with ⟨b, hbm, rfl⟩
    obtain ⟨h0, hsum⟩ := hA b hbm
    rw [hrecs]
    by_cases hcase : b.id = bid
    · have hfound := openCountR_closeFirst_found pid bid t s.records hrec
      simp only [if_pos (show (b.id == bid) = true by simp [hcase])]
      rw [hcase] at hsum ⊢
      constructor
      · omega
      · omega
    · have hne := openCountR_closeFirst_ne pid bid t hcase s.records
      simp only [if_neg (show ¬ (b.id == bid) = true by simp [hcase])]
      rw [hne]
      exact ⟨h0, hsum⟩
  · intro b' hb'
    have hmm : b'.id ∈ (update_book_availability (update_borrow_record_return_date s pid bid t) bid 1).books.map Book.id :=
      List.mem_map_of_mem _ hb'
    rw [update_books_map_id] at hmm
    rcases List.mem_map.mp hmm with ⟨b, hbm, hbe⟩
    rw [hnext, ← hbe]
    exact hB b hbm
  · rw [update_books_map_id]
    exact hC
  · intro r hr
    rw [hrecs] at hr
    rw [hnext]
    exact closeFirst_book_id_lt pid bid t s.nextId s.records hD r hr

/-- Every branch of `borrow_book_by_patron` (with the storage updates
succeeding) preserves the invariant. -/
theorem inv_borrow (now : Int) (s : LibraryState) (pid : String) (bid : Nat)
    (h : StateInv s) : StateInv (borrow_book_by_patron now true true s pid bid).2 := by
  unfold borrow_book_by_patron
  cases hv : isValidPatronId pid with
  | false => exact h
  | true =>
    cases hbk : get_book_by_id s bid with
    | none => exact h
    | some book =>
      simp only [Bool.not_true, Bool.false_eq_true, if_false]
      by_cases havail : book.available_copies ≤ 0
      · rw [if_pos havail]
        exact h
      · rw [if_neg havail]
        by_cases hcnt : 5 ≤ get_patron_borrow_count s pid
        · rw [if_pos hcnt]
          exact h
        · rw [if_neg hcnt]
          exact inv_borrow_success s pid bid book now (now + 14 * secPerDay) h hbk havail

/-- Every branch of `return_book_by_patron` (with the storage updates
succeeding) preserves the invariant. -/
theorem inv_ret (now : Int) (s : LibraryState) (pid : String) (bid : Nat)
    (h : StateInv s) : StateInv (return_book_by_patron now true true s pid bid).2 := by
  unfold return_book_by_patron
  cases hv : isValidPatronId pid with
  | false => exact h
  | true =>
    cases hbk : get_book_by_id s bid with
    | none => exact h
    | some book =>
      cases hrec : findOpenRecord s pid bid with
      | none => exact h
      | some r =>
        simp only [Bool.not_true, Bool.false_eq_true, if_false]
        refine inv_ret_success s pid bid book now h hbk ?_
        unfold findOpenRecord at hrec
        rw [hrec]
        rfl

/-- Every reachable state satisfies the bookkeeping invariant. -/
theorem reachable_inv {s : LibraryState} (h : Reachable s) : StateInv s := by
  induction h with
  | init => exact inv_init
  | add t a i n _ ih => exact inv_add _ t a i n ih
  | borrow now pid bid _ ih => exact inv_borrow now _ pid bid ih
  | ret now pid bid _ ih => exact inv_ret now _ pid bid ih

/-- C2: in every state reachable from the empty store by any sequence of
addBook, borrow and return operations, each stored book satisfies
0 ≤ available_copies ≤ total_copies. -/
theorem reachable_availability_bounds (s : LibraryState) (hs : Reachable s)
    (b : Book) (hb : b ∈ s.books) :
    0 ≤ b.available_copies ∧ b.available_copies ≤ b.total_copies := by
  obtain ⟨hA, -, -, -⟩ := reachable_inv hs
  obtain ⟨h0, hsum⟩ := hA b hb
  refine ⟨h0, ?_⟩
  have hge : (0 : Int) ≤ (openCountR s.records b.id : Int) := Int.natCast_nonneg _
  omega

/-- Witness for `reachable_availability_bounds`: the store reached by one
book addition. -/
theorem reachable_availability_bounds_witness :
    bReach1 ∈ sReach1.books ∧
    (0 ≤ bReach1.available_copies ∧ bReach1.available_copies ≤ bReach1.total_copies) :=
  ⟨by decide, reachable_availability_bounds sReach1
    (Reachable.add "T" "A" "1234567890123" 1 Reachable.init) bReach1 (by decide)⟩
